import Mathlib

/-!
# Verification of the shared-calendar reminder bot (src/main.py)

This file gives a shallow embedding of the logic of `main.py`:
the Gregorian date arithmetic it inherits from Python `datetime.date`
(lexicographic comparison, proleptic-Gregorian ordinals, `replace(year=...)`
validation), the string parsing done by `strptime` with the formats
`%d-%m-%Y` and `%H:%M`, the per-event reminder evaluation of
`check_reminders`, the elapsed-time breakdown of `our_journey`, the
id-and-owner scoped deletion of `delete_router`, and the time input
handling of `get_time`.  Theorems at the end settle the specification
claims against these definitions.
-/

/-- A calendar date, mirroring the `(year, month, day)` fields of a Python
`datetime.date`.  Validity is a separate predicate `isValidDate`, checked at
each construction site exactly where Python would raise `ValueError`. -/
structure Date where
  year : Nat
  month : Nat
  day : Nat
deriving DecidableEq

/-- Gregorian leap-year rule, as in Python `calendar.isleap` /
`datetime._is_leap`: divisible by 4 and (not by 100 unless by 400). -/
def isLeap (y : Nat) : Bool :=
  (y % 4 == 0) && (y % 100 != 0 || y % 400 == 0)

/-- Number of days in a month, as in `datetime._days_in_month`. -/
def daysInMonth (y m : Nat) : Nat :=
  if m = 2 then (if isLeap y then 29 else 28)
  else if m = 4 ∨ m = 6 ∨ m = 9 ∨ m = 11 then 30
  else 31

/-- The validity condition enforced by the `datetime.date` constructor:
`MINYEAR (1) <= year <= MAXYEAR (9999)`, `1 <= month <= 12`,
`1 <= day <= days_in_month(year, month)`. -/
def isValidDate (d : Date) : Prop :=
  1 ≤ d.year ∧ d.year ≤ 9999 ∧ 1 ≤ d.month ∧ d.month ≤ 12 ∧
    1 ≤ d.day ∧ d.day ≤ daysInMonth d.year d.month

instance (d : Date) : Decidable (isValidDate d) := by
  unfold isValidDate; exact inferInstance

/-- Days in a year: 366 in a leap year, else 365. -/
def daysInYear (y : Nat) : Nat := if isLeap y then 366 else 365

/-- Number of days before January 1 of year `y`, the closed form of
`datetime._days_before_year`: with `n = y - 1` prior years, `n * 365`
plus one leap day per year divisible by 4, except centuries, except
those divisible by 400. -/
def daysBeforeYear (y : Nat) : Nat :=
  (y - 1) * 365 + (y - 1) / 4 - (y - 1) / 100 + (y - 1) / 400

/-- Cumulative days before each month in a non-leap year, the
`_DAYS_BEFORE_MONTH` table of CPython `datetime`. -/
def daysBeforeMonthTable (m : Nat) : Nat :=
  match m with
  | 1 => 0 | 2 => 31 | 3 => 59 | 4 => 90 | 5 => 120 | 6 => 151
  | 7 => 181 | 8 => 212 | 9 => 243 | 10 => 273 | 11 => 304 | 12 => 334
  | _ => 0

/-- Number of days in year `y` preceding the first of month `m`
(`datetime._days_before_month`): table value plus one leap day after
February in leap years. -/
def daysBeforeMonth (y m : Nat) : Nat :=
  daysBeforeMonthTable m + (if 2 < m ∧ isLeap y then 1 else 0)

/-- Proleptic-Gregorian ordinal of a date (`datetime.date.toordinal`,
`_ymd2ord`): day 1 is January 1 of year 1. -/
def toOrdinal (d : Date) : Nat :=
  daysBeforeYear d.year + daysBeforeMonth d.year d.month + d.day

/-- Day difference `(a - b).days` of two Python dates: the exact difference
of their ordinals, as a signed integer. -/
def dateDiff (a b : Date) : Int :=
  (toOrdinal a : Int) - (toOrdinal b : Int)

/-- Comparison of Python dates (`date.__lt__`): lexicographic on
`(year, month, day)`. -/
def dateLt (a b : Date) : Prop :=
  a.year < b.year ∨ (a.year = b.year ∧
    (a.month < b.month ∨ (a.month = b.month ∧ a.day < b.day)))

instance (a b : Date) : Decidable (dateLt a b) := by
  unfold dateLt; exact inferInstance

/-- The effect of `d.replace(year := y)` on a Python date: keeps month and
day, validates the result, raising `ValueError` (here: `none`) if the new
combination is not a valid date (e.g. February 29 in a non-leap year). -/
def pyReplaceYear (d : Date) (y : Nat) : Option Date :=
  if isValidDate ⟨y, d.month, d.day⟩ then some ⟨y, d.month, d.day⟩ else none

/-- Candidate occurrence computed by `check_reminders` (main.py lines
507-512): project the event date onto the current year; if that date has
already passed, onto the next year.  A `ValueError` escaping from either
`replace` is modelled by `none` (it is caught by the surrounding
`except ValueError` and skips the event). -/
def candidateOccurrence (eventDt today : Date) : Option Date :=
  match pyReplaceYear eventDt today.year with
  | none => none
  | some c =>
      if dateLt c today then pyReplaceYear eventDt (today.year + 1)
      else some c

/-- Split a character list on a separator character, as Python
`str.split(sep)`: `n` separators yield `n + 1` (possibly empty) groups. -/
def splitOnChar (sep : Char) : List Char → List (List Char)
  | [] => [[]]
  | c :: cs =>
      match splitOnChar sep cs with
      | [] => [[]]
      | g :: gs => if c = sep then [] :: g :: gs else (c :: g) :: gs

/-- Value of a decimal digit character, `none` for non-digits. -/
def digitVal (c : Char) : Option Nat :=
  if '0' ≤ c ∧ c ≤ '9' then some (c.toNat - '0'.toNat) else none

/-- Accumulating decimal reader over a digit list. -/
def digitsToNatAux : Nat → List Char → Option Nat
  | acc, [] => some acc
  | acc, c :: cs =>
      match digitVal c with
      | some d => digitsToNatAux (acc * 10 + d) cs
      | none => none

/-- Decimal value of a non-empty all-digit character list, else `none`. -/
def digitsToNat : List Char → Option Nat
  | [] => none
  | cs => digitsToNatAux 0 cs

/-- Parse of `datetime.strptime(s, "%d-%m-%Y")`, reduced to the date it
produces: three dash-separated decimal fields, day and month of one or two
digits, year of exactly four digits, and the resulting triple must pass the
`datetime.date` constructor check.  Any failure raises `ValueError`,
modelled by `none`. -/
def parseDate (s : String) : Option Date :=
  match splitOnChar '-' s.data with
  | [ds, ms, ys] =>
      match digitsToNat ds, digitsToNat ms, digitsToNat ys with
      | some d, some m, some y =>
          if ds.length ≤ 2 ∧ ms.length ≤ 2 ∧ ys.length = 4 ∧
              isValidDate ⟨y, m, d⟩ then
            some ⟨y, m, d⟩
          else none
      | _, _, _ => none
  | _ => none

/-- Parse of `datetime.strptime(s, "%H:%M")`, reduced to the (hour, minute)
pair it produces: two colon-separated decimal fields of one or two digits,
hour at most 23, minute at most 59; else `ValueError` (`none`). -/
def parseTimeHM (s : String) : Option (Nat × Nat) :=
  match splitOnChar ':' s.data with
  | [hs, ms] =>
      match digitsToNat hs, digitsToNat ms with
      | some h, some m =>
          if hs.length ≤ 2 ∧ ms.length ≤ 2 ∧ h ≤ 23 ∧ m ≤ 59 then
            some (h, m)
          else none
      | _, _ => none
  | _ => none

/-- Whitespace characters stripped by Python `str.strip()` (the ASCII
ones relevant here). -/
def isPySpace (c : Char) : Bool :=
  c = ' ' || c = '\t' || c = '\n' || c = '\x0d' || c = '\x0b' || c = '\x0c'

/-- Python `str.strip()`: drop whitespace from both ends. -/
def pyStrip (s : String) : String :=
  ⟨((s.data.dropWhile isPySpace).reverse.dropWhile isPySpace).reverse⟩

/-- ASCII lower-casing of one character, as Python `str.lower()` acts on
the ASCII range. -/
def asciiLower (c : Char) : Char :=
  if 'A' ≤ c ∧ c ≤ 'Z' then Char.ofNat (c.toNat + 32) else c

/-- Python `str.lower()` on ASCII text. -/
def pyLower (s : String) : String := ⟨s.data.map asciiLower⟩

/-- Zero-padded two-digit decimal rendering (for values below 100), the
behaviour of `%H` and `%M` in `strftime`. -/
def fmt2 (n : Nat) : List Char := [Nat.digitChar (n / 10), Nat.digitChar (n % 10)]

/-- `now.strftime("%H:%M")` (main.py line 498): zero-padded hour, colon,
zero-padded minute. -/
def fmtHM (h m : Nat) : String := ⟨fmt2 h ++ ':' :: fmt2 m⟩

/-- Replacement text of a single character under `html.escape` (with
quoting, the default): ampersand, angle brackets and both quote characters
are replaced by entities. -/
def escapeChar (c : Char) : List Char :=
  if c = '&' then "&amp;".data
  else if c = '<' then "&lt;".data
  else if c = '>' then "&gt;".data
  else if c = Char.ofNat 34 then "&quot;".data
  else if c = Char.ofNat 39 then "&#x27;".data
  else [c]

/-- The `secure_text` helper of main.py (lines 101-108): `html.escape` on
non-empty text, the empty string otherwise (Python treats `None` and `""`
as falsy; both map to `""` here). -/
def secure_text (s : String) : String := ⟨s.data.flatMap escapeChar⟩

/-- Modelled from pytz semantics: a time-zone database resolving zone names
to fixed UTC offsets in minutes (`pytz.timezone` raising
`UnknownTimeZoneError` is `none`).  The name `"UTC"` is always recognized
with offset zero, and all offsets stay within one day. -/
structure ZoneDB where
  find : String → Option Int
  utc_zero : find "UTC" = some 0
  offset_bound : ∀ s o, find s = some o → o.natAbs ≤ 1439

/-- A wall-clock instant to minute precision: a calendar date plus hour and
minute, as much of a Python timezone-aware `datetime` as `check_reminders`
inspects. -/
structure DateTimeM where
  date : Date
  hour : Nat
  minute : Nat
deriving DecidableEq

/-- Calendar successor of a date. -/
def nextDate (d : Date) : Date :=
  if d.day < daysInMonth d.year d.month then ⟨d.year, d.month, d.day + 1⟩
  else if d.month < 12 then ⟨d.year, d.month + 1, 1⟩
  else ⟨d.year + 1, 1, 1⟩

/-- Calendar predecessor of a date. -/
def prevDate (d : Date) : Date :=
  if 1 < d.day then ⟨d.year, d.month, d.day - 1⟩
  else if 1 < d.month then ⟨d.year, d.month - 1, daysInMonth d.year (d.month - 1)⟩
  else ⟨d.year - 1, 12, 31⟩

/-- Modelled from `datetime.astimezone` for a fixed-offset zone: shift the
time of day by the offset, rolling the date forward or back by one day when
the shifted minute count leaves `[0, 1440)` (offsets are bounded by one day,
see `ZoneDB.offset_bound`). -/
def addMinutes (dt : DateTimeM) (off : Int) : DateTimeM :=
  let t : Int := (dt.hour : Int) * 60 + (dt.minute : Int) + off
  if t < 0 then
    let t2 := (t + 1440).toNat
    ⟨prevDate dt.date, t2 / 60, t2 % 60⟩
  else if t < 1440 then
    ⟨dt.date, t.toNat / 60, t.toNat % 60⟩
  else
    let t2 := t.toNat - 1440
    ⟨nextDate dt.date, t2 / 60, t2 % 60⟩

/-- One row of the `LEFT JOIN` query of `check_reminders` (main.py lines
471-475): event columns plus the owner's time-zone setting, `none` when the
owner has no `user_settings` row. -/
structure EventRow where
  chat_id : Int
  name : String
  event_date : String
  notify_time : String
  timezone : Option String
deriving DecidableEq

/-- Zone name used for a row (main.py line 489): the stored setting when it
is truthy (non-empty), else the literal `"UTC"`. -/
def tzNameOf (row : EventRow) : String :=
  match row.timezone with
  | some s => if s = "" then "UTC" else s
  | none => "UTC"

/-- Offset resolution of main.py lines 490-493: `pytz.timezone` on the
resolved name, falling back to UTC (offset 0) when the name is not
recognized. -/
def resolveOffset (zdb : ZoneDB) (row : EventRow) : Int :=
  (zdb.find (tzNameOf row)).getD 0

/-- The owner-local current datetime (`utc_now.astimezone(user_tz)`,
main.py line 496). -/
def localNow (zdb : ZoneDB) (utcNow : DateTimeM) (row : EventRow) : DateTimeM :=
  addMinutes utcNow (resolveOffset zdb row)

/-- Message for an event one month out (main.py line 519). -/
def oneMonthMsg (name : String) : String :=
  "🔔 Head\x27s up! <b>" ++ secure_text name ++ "</b> is in 1 month."

/-- Message for an event a whole number of weeks out (main.py line 522). -/
def weeksMsg (name : String) (weeks : Int) : String :=
  "⏰ Reminder: <b>" ++ secure_text name ++ "</b> is in " ++ toString weeks ++ " week(s)."

/-- Message for an event due tomorrow (main.py line 524). -/
def tomorrowMsg (name : String) : String :=
  "😱 Get ready! <b>" ++ secure_text name ++ "</b> is TOMORROW!"

/-- Message for an event due today (main.py line 526). -/
def todayMsg (name : String) : String :=
  "🎉 Today is the day! Happy <b>" ++ secure_text name ++ "</b>!"

/-- Threshold selection of main.py lines 517-526: the if/elif chain mapping
`days_until` to at most one message.  Python `//` and `%` are floor
division and floor modulus, `Int.fdiv` and `Int.fmod`. -/
def selectMessage (name : String) (daysUntil : Int) : Option String :=
  if daysUntil = 30 then some (oneMonthMsg name)
  else if 0 < daysUntil ∧ daysUntil < 30 ∧ daysUntil.fmod 7 = 0 then
    some (weeksMsg name (daysUntil.fdiv 7))
  else if daysUntil = 1 then some (tomorrowMsg name)
  else if daysUntil = 0 then some (todayMsg name)
  else none

/-- Evaluation of a single joined row by `check_reminders` (main.py lines
482-532): resolve the zone, convert to local time, apply the exact-string
time gate, parse the stored date, project the yearly recurrence, and select
a message.  `none` means no notification for this row on this tick, whether
from the time gate, a date `ValueError`, or no threshold matching. -/
def evalEvent (zdb : ZoneDB) (utcNow : DateTimeM) (row : EventRow) : Option String :=
  let now := localNow zdb utcNow row
  if fmtHM now.hour now.minute ≠ row.notify_time then none
  else
    match parseDate row.event_date with
    | none => none
    | some eventDt =>
        match candidateOccurrence eventDt now.date with
        | none => none
        | some c => selectMessage row.name (dateDiff c now.date)

/-- The `days_until` value (main.py line 514) a row yields on a tick, when
its date parses and the recurrence projection succeeds. -/
def daysUntilOf (zdb : ZoneDB) (utcNow : DateTimeM) (row : EventRow) : Option Int :=
  match parseDate row.event_date with
  | none => none
  | some eventDt =>
      (candidateOccurrence eventDt (localNow zdb utcNow row).date).map
        (fun c => dateDiff c (localNow zdb utcNow row).date)

/-- A row of the `events` table (main.py lines 45-53). -/
structure EventRec where
  id : Nat
  chat_id : Int
  name : String
  event_date : String
  notify_time : String
deriving DecidableEq

/-- A row of the `notes` table (main.py lines 56-64). -/
structure NoteRec where
  id : Nat
  chat_id : Int
  title : String
  content : String
  photo_id : Option String
deriving DecidableEq

/-- The `dates.db` database: events, notes, and per-chat time-zone settings
(`user_settings`, keyed by `chat_id`). -/
structure Store where
  events : List EventRec
  notes : List NoteRec
  settings : List (Int × String)
deriving DecidableEq

/-- Time-zone setting of a chat: the `user_settings` lookup backing the
`LEFT JOIN` (at most one row per chat, it is the primary key). -/
def lookupTz (settings : List (Int × String)) (cid : Int) : Option String :=
  (settings.find? (fun p => p.1 == cid)).map (fun p => p.2)

/-- Result set of the `LEFT JOIN` query of `check_reminders` (main.py
lines 471-475): one row per event, carrying the owner's zone setting. -/
def joinedRows (db : Store) : List EventRow :=
  db.events.map (fun e =>
    ⟨e.chat_id, e.name, e.event_date, e.notify_time, lookupTz db.settings e.chat_id⟩)

/-- One tick of `check_reminders` (main.py lines 461-532): read the joined
snapshot, evaluate every row, and emit the resulting notifications as
`(chat_id, message)` requests.  The function only reads the store, so the
post-tick store is returned unchanged alongside the notifications. -/
def check_reminders (zdb : ZoneDB) (utcNow : DateTimeM) (db : Store) :
    Store × List (Int × String) :=
  (db, (joinedRows db).filterMap (fun r =>
    (evalEvent zdb utcNow r).map (fun m => (r.chat_id, m))))

/-- Breakdown arithmetic of `our_journey` (main.py lines 153-159): Python
floor division and modulus on the day count `(today - start_date).days`. -/
def journeyBreakdown (totalDays : Int) : Int × Int × Int :=
  let years := totalDays.fdiv 365
  let remainingDays := totalDays.fmod 365
  let months := remainingDays.fdiv 30
  let days := remainingDays.fmod 30
  (years, months, days)

/-- Numeric core of `our_journey` for a parsed anniversary date: day count
from start to today, split into the displayed years, months and days. -/
def our_journey (startDate today : Date) : Int × Int × Int :=
  journeyBreakdown (dateDiff today startDate)

/-- The SQL statement `DELETE FROM ... WHERE id = ? AND chat_id = ?`
(main.py line 444), generic over the table row type: the surviving rows and
the `rowcount` of deleted ones. -/
def deleteByIdOwner {α : Type} (rowId : α → Nat) (rowOwner : α → Int)
    (itemId : Nat) (owner : Int) (rows : List α) : List α × Nat :=
  (rows.filter (fun r => !(rowId r == itemId && rowOwner r == owner)),
   (rows.filter (fun r => rowId r == itemId && rowOwner r == owner)).length)

/-- Deletion branch of `delete_router` (main.py lines 439-454): run the
scoped delete and report success exactly when `cursor.rowcount > 0`. -/
def delete_router_case_c {α : Type} (rowId : α → Nat) (rowOwner : α → Int)
    (itemId : Nat) (owner : Int) (rows : List α) : List α × Bool :=
  let res := deleteByIdOwner rowId rowOwner itemId owner rows
  (res.1, decide (0 < res.2))

/-- The `get_time` step of the add-event flow (main.py lines 247-258),
reduced to the stored `notify_time` it produces: `some t` means the record
is inserted with `notify_time = t`, `none` means the input is rejected and
the user is re-prompted with no insertion. -/
def get_time (input : String) : Option String :=
  let timeText := pyStrip input
  if pyLower timeText = "skip" then some "12:00"
  else
    match parseTimeHM timeText with
    | some _ => some timeText
    | none => none

set_option maxHeartbeats 2000000 in
lemma daysBeforeYear_succ (y : Nat) (h : 1 ≤ y) :
    daysBeforeYear (y + 1) = daysBeforeYear y + daysInYear y := by
  obtain ⟨n, rfl⟩ : ∃ n, y = n + 1 := ⟨y - 1, by omega⟩
  unfold daysBeforeYear daysInYear isLeap
  simp only [Nat.add_sub_cancel]
  split_ifs with hl
  · simp only [Bool.and_eq_true, Bool.or_eq_true, beq_iff_eq, bne_iff_ne, ne_eq] at hl
    omega
  · simp only [Bool.and_eq_true, Bool.or_eq_true, beq_iff_eq, bne_iff_ne, ne_eq,
      not_and, not_or, Decidable.not_not] at hl
    omega

lemma daysBeforeYear_mono {y1 y2 : Nat} (h1 : 1 ≤ y1) (h : y1 ≤ y2) :
    daysBeforeYear y1 ≤ daysBeforeYear y2 := by
  induction y2, h using Nat.le_induction with
  | base => exact Nat.le_refl _
  | succ n hn ih =>
      refine Nat.le_trans ih ?_
      rw [daysBeforeYear_succ n (Nat.le_trans h1 hn)]
      exact Nat.le_add_right _ _

set_option maxHeartbeats 1000000 in
lemma daysBeforeMonthTable_mono :
    ∀ m2, m2 < 13 → ∀ m1, m1 ≤ m2 → daysBeforeMonthTable m1 ≤ daysBeforeMonthTable m2 := by
  decide

lemma daysBeforeMonth_add (y m : Nat) (h1 : 1 ≤ m) (h2 : m ≤ 11) :
    daysBeforeMonth y m + daysInMonth y m = daysBeforeMonth y (m + 1) := by
  interval_cases m <;> cases hl : isLeap y <;>
    simp [daysBeforeMonth, daysBeforeMonthTable, daysInMonth, hl]

lemma daysBeforeMonth_mono (y : Nat) {m1 m2 : Nat} (h : m1 ≤ m2) (h2 : m2 ≤ 12) :
    daysBeforeMonth y m1 ≤ daysBeforeMonth y m2 := by
  unfold daysBeforeMonth
  have ht := daysBeforeMonthTable_mono m2 (by omega) m1 h
  split_ifs with p q
  · omega
  · exact absurd ⟨Nat.lt_of_lt_of_le p.1 h, p.2⟩ q
  · omega
  · omega

lemma daysBeforeMonth_day_le (y : Nat) {m d : Nat} (hm1 : 1 ≤ m) (hm2 : m ≤ 12)
    (hd : d ≤ daysInMonth y m) :
    daysBeforeMonth y m + d ≤ daysInYear y := by
  interval_cases m <;> cases hl : isLeap y <;>
    simp [daysBeforeMonth, daysBeforeMonthTable, daysInMonth, daysInYear, hl] at hd ⊢ <;>
    omega

lemma toOrdinal_lt_of_dateLt {a b : Date} (ha : isValidDate a) (hb : isValidDate b)
    (h : dateLt a b) : toOrdinal a < toOrdinal b := by
  obtain ⟨ay, am, ad⟩ := a
  obtain ⟨cy, cm, cd⟩ := b
  simp only [isValidDate] at ha hb
  obtain ⟨hay1, hay2, ham1, ham2, had1, had2⟩ := ha
  obtain ⟨hcy1, hcy2, hcm1, hcm2, hcd1, hcd2⟩ := hb
  simp only [dateLt] at h
  unfold toOrdinal
  simp only at h had2 hcd2 ⊢
  rcases h with hy | ⟨rfl, hm | ⟨rfl, hd⟩⟩
  · have h1 : daysBeforeMonth ay am + ad ≤ daysInYear ay :=
      daysBeforeMonth_day_le ay ham1 ham2 had2
    have h2 : daysBeforeYear (ay + 1) = daysBeforeYear ay + daysInYear ay :=
      daysBeforeYear_succ ay hay1
    have h3 : daysBeforeYear (ay + 1) ≤ daysBeforeYear cy :=
      daysBeforeYear_mono (by omega) (by omega)
    omega
  · have h1 : daysBeforeMonth ay am + daysInMonth ay am = daysBeforeMonth ay (am + 1) :=
      daysBeforeMonth_add ay am ham1 (by omega)
    have h2 : daysBeforeMonth ay (am + 1) ≤ daysBeforeMonth ay cm :=
      daysBeforeMonth_mono ay (by omega) hcm2
    omega
  · omega

lemma dateLt_total (a b : Date) : dateLt a b ∨ a = b ∨ dateLt b a := by
  obtain ⟨ay, am, ad⟩ := a
  obtain ⟨cy, cm, cd⟩ := b
  simp only [dateLt, Date.mk.injEq]
  omega

lemma toOrdinal_le_of_not_lt {a b : Date} (ha : isValidDate a) (hb : isValidDate b)
    (h : ¬ dateLt b a) : toOrdinal a ≤ toOrdinal b := by
  rcases dateLt_total a b with hl | he | hg
  · exact Nat.le_of_lt (toOrdinal_lt_of_dateLt ha hb hl)
  · rw [he]
  · exact absurd hg h

lemma pyReplaceYear_some {d : Date} {y : Nat} {c : Date}
    (h : pyReplaceYear d y = some c) :
    c = ⟨y, d.month, d.day⟩ ∧ isValidDate c := by
  unfold pyReplaceYear at h
  split_ifs at h with hv
  · cases h; exact ⟨rfl, hv⟩

lemma dateDiff_nonneg {a b : Date} (h : toOrdinal b ≤ toOrdinal a) :
    0 ≤ dateDiff a b := by
  unfold dateDiff; omega

/-- C1: for an event date `e` that parsed as a valid date and the owner's
local today `t`, `check_reminders` builds the candidate occurrence by
setting the year of `e` to the year of `t` (month and day unchanged); if
that candidate is strictly earlier than `t` it retries with the following
year; and whenever a candidate is produced, its day distance `days_until`
to `t` is non-negative. -/
theorem claim_c1_candidate_projection (e t : Date)
    (he : isValidDate e) (ht : isValidDate t) :
    (∀ c1, pyReplaceYear e t.year = some c1 → ¬ dateLt c1 t →
      candidateOccurrence e t = some c1) ∧
    (∀ c1, pyReplaceYear e t.year = some c1 → dateLt c1 t →
      candidateOccurrence e t = pyReplaceYear e (t.year + 1)) ∧
    (∀ c, candidateOccurrence e t = some c →
      c.month = e.month ∧ c.day = e.day ∧
        (c.year = t.year ∨ c.year = t.year + 1) ∧ 0 ≤ dateDiff c t) := by
  refine ⟨?_, ?_, ?_⟩
  · intro c1 h1 h2
    simp only [candidateOccurrence, h1]
    rw [if_neg h2]
  · intro c1 h1 h2
    simp only [candidateOccurrence, h1]
    rw [if_pos h2]
  · intro c hc
    cases hr : pyReplaceYear e t.year with
    | none =>
        rw [candidateOccurrence.eq_def, hr] at hc
        cases hc
    | some c1 =>
        simp only [candidateOccurrence, hr] at hc
        obtain ⟨rfl, hv1⟩ := pyReplaceYear_some hr
        split_ifs at hc with hlt
        · obtain ⟨rfl, hv2⟩ := pyReplaceYear_some hc
          refine ⟨rfl, rfl, Or.inr rfl, ?_⟩
          refine dateDiff_nonneg (Nat.le_of_lt (toOrdinal_lt_of_dateLt ht hv2 ?_))
          exact Or.inl (by show t.year < t.year + 1; omega)
        · obtain rfl := Option.some.inj hc
          exact ⟨rfl, rfl, Or.inl rfl, dateDiff_nonneg (toOrdinal_le_of_not_lt ht hv1 hlt)⟩

/-- Witness for C1 at the concrete dates of the specification example:
event stored on January 10, evaluated on December 1, projects to January 10
of the next year with a non-negative day distance. -/
theorem claim_c1_witness :
    candidateOccurrence ⟨2022, 1, 10⟩ ⟨2025, 12, 1⟩ = some ⟨2026, 1, 10⟩ ∧
    (0 : Int) ≤ dateDiff ⟨2026, 1, 10⟩ ⟨2025, 12, 1⟩ := by
  have h := claim_c1_candidate_projection ⟨2022, 1, 10⟩ ⟨2025, 12, 1⟩ (by decide) (by decide)
  exact ⟨by decide, (h.2.2 ⟨2026, 1, 10⟩ (by decide)).2.2.2⟩

/-- A concrete zone database recognizing only `"UTC"`, used by the witness
theorems. -/
def zdb0 : ZoneDB where
  find := fun s => if s = "UTC" then some 0 else none
  utc_zero := rfl
  offset_bound := by
    intro s o h
    simp only [] at h
    split at h
    · cases h; decide
    · cases h

/-- A concrete tick instant for the witness theorems: June 1, 2025 at
09:00 UTC. -/
def testNow : DateTimeM := ⟨⟨2025, 6, 1⟩, 9, 0⟩

/-- A concrete joined row for the witness theorems: an event fourteen days
after `testNow`, alerting at 09:00, owner without a zone setting. -/
def testRow : EventRow := ⟨1, "Trip", "15-06-2025", "09:00", none⟩

lemma evalEvent_none_of_parse_fail (zdb : ZoneDB) (utcNow : DateTimeM) (row : EventRow)
    (h : parseDate row.event_date = none) : evalEvent zdb utcNow row = none := by
  simp only [evalEvent]
  split_ifs with hcond
  · rfl
  · simp only [h]

/-- C2 test: threshold selection. -/
theorem claim_c2_threshold_selection (zdb : ZoneDB) (utcNow : DateTimeM) (row : EventRow)
    (hgate : fmtHM (localNow zdb utcNow row).hour (localNow zdb utcNow row).minute =
      row.notify_time) :
    evalEvent zdb utcNow row =
      (daysUntilOf zdb utcNow row).bind (fun du => selectMessage row.name du) ∧
    ∀ (name : String) (du : Int),
      (du = 30 → selectMessage name du = some (oneMonthMsg name)) ∧
      (0 < du → du < 30 → du.fmod 7 = 0 →
        selectMessage name du = some (weeksMsg name (du.fdiv 7))) ∧
      (du = 1 → selectMessage name du = some (tomorrowMsg name)) ∧
      (du = 0 → selectMessage name du = some (todayMsg name)) ∧
      (du ≠ 30 → ¬(0 < du ∧ du < 30 ∧ du.fmod 7 = 0) → du ≠ 1 → du ≠ 0 →
        selectMessage name du = none) := by
  constructor
  · simp only [evalEvent, daysUntilOf, hgate, ne_eq, not_true_eq_false, if_false]
    cases hp : parseDate row.event_date with
    | none => rfl
    | some eventDt =>
        cases hcand : candidateOccurrence eventDt (localNow zdb utcNow row).date <;>
          simp [hcand]
  · intro name du
    refine ⟨?_, ?_, ?_, ?_, ?_⟩
    · rintro rfl; simp [selectMessage]
    · intro h1 h2 h3
      unfold selectMessage
      rw [if_neg (by omega), if_pos ⟨h1, h2, h3⟩]
    · rintro rfl
      unfold selectMessage
      rw [if_neg (by omega), if_neg (by rintro ⟨-, -, hc⟩; exact absurd hc (by decide)),
        if_pos rfl]
    · rintro rfl
      unfold selectMessage
      rw [if_neg (by omega), if_neg (by rintro ⟨h0, -, -⟩; exact absurd h0 (by omega)),
        if_neg (by omega), if_pos rfl]
    · intro n30 nw n1 n0
      unfold selectMessage
      rw [if_neg n30, if_neg nw, if_neg n1, if_neg n0]

/-- Witness for C2. -/
theorem claim_c2_witness :
    evalEvent zdb0 testNow testRow =
      ((daysUntilOf zdb0 testNow testRow).bind (fun du => selectMessage testRow.name du)) ∧
    selectMessage "Trip" 14 = some (weeksMsg "Trip" ((14 : Int).fdiv 7)) := by
  have h := claim_c2_threshold_selection zdb0 testNow testRow (by decide)
  exact ⟨h.1, (h.2 "Trip" 14).2.1 (by decide) (by decide) (by decide)⟩

/-- Concrete store for the C3 pair example: two events of owner 1 due
today, alert times 09:00 and 09:01. -/
def pairDb : Store :=
  ⟨[⟨1, 1, "A", "01-06-2025", "09:00"⟩, ⟨2, 1, "A", "01-06-2025", "09:01"⟩], [], []⟩

/-- C3 test: exact-string time gate. -/
theorem claim_c3_time_gate :
    (∀ (zdb : ZoneDB) (utcNow : DateTimeM) (row : EventRow),
      row.notify_time ≠
          fmtHM (localNow zdb utcNow row).hour (localNow zdb utcNow row).minute →
      evalEvent zdb utcNow row = none) ∧
    (check_reminders zdb0 testNow pairDb).2 = [(1, todayMsg "A")] := by
  constructor
  · intro zdb utcNow row h
    simp only [evalEvent]
    split_ifs with hcond
    · rfl
    · exact absurd (Ne.symm h) hcond
  · decide

/-- Witness for C3: the 09:01 event of the pair example is gated out at
local time 09:00. -/
theorem claim_c3_witness :
    evalEvent zdb0 testNow ⟨1, "A", "01-06-2025", "09:01", none⟩ = none :=
  claim_c3_time_gate.1 zdb0 testNow ⟨1, "A", "01-06-2025", "09:01", none⟩ (by decide)

lemma evalEvent_congr_offset (zdb : ZoneDB) (utcNow : DateTimeM) {r1 r2 : EventRow}
    (hn : r1.name = r2.name) (he : r1.event_date = r2.event_date)
    (ht : r1.notify_time = r2.notify_time)
    (ho : resolveOffset zdb r1 = resolveOffset zdb r2) :
    evalEvent zdb utcNow r1 = evalEvent zdb utcNow r2 := by
  unfold evalEvent localNow
  rw [hn, he, ht, ho]

lemma daysUntilOf_congr_offset (zdb : ZoneDB) (utcNow : DateTimeM) {r1 r2 : EventRow}
    (he : r1.event_date = r2.event_date)
    (ho : resolveOffset zdb r1 = resolveOffset zdb r2) :
    daysUntilOf zdb utcNow r1 = daysUntilOf zdb utcNow r2 := by
  unfold daysUntilOf localNow
  rw [he, ho]

/-- C5 test: unrecognized zone behaves as no zone. -/
theorem claim_c5_unknown_tz (zdb : ZoneDB) (utcNow : DateTimeM) (row : EventRow)
    (zname : String) (h : zdb.find zname = none) :
    localNow zdb utcNow { row with timezone := some zname } =
      localNow zdb utcNow { row with timezone := none } ∧
    daysUntilOf zdb utcNow { row with timezone := some zname } =
      daysUntilOf zdb utcNow { row with timezone := none } ∧
    evalEvent zdb utcNow { row with timezone := some zname } =
      evalEvent zdb utcNow { row with timezone := none } := by
  have hoff : resolveOffset zdb { row with timezone := some zname } =
      resolveOffset zdb { row with timezone := none } := by
    unfold resolveOffset tzNameOf
    simp only
    by_cases hz : zname = ""
    · rw [if_pos hz]
    · rw [if_neg hz, h, zdb.utc_zero]; rfl
  refine ⟨?_, ?_, ?_⟩
  · unfold localNow; rw [hoff]
  · exact daysUntilOf_congr_offset zdb utcNow rfl hoff
  · exact evalEvent_congr_offset zdb utcNow rfl rfl rfl hoff

/-- Witness for C5 with the unrecognized zone name `"Mars/Phobos"`. -/
theorem claim_c5_witness :
    evalEvent zdb0 testNow ⟨1, "Trip", "15-06-2025", "09:00", some "Mars/Phobos"⟩ =
      evalEvent zdb0 testNow ⟨1, "Trip", "15-06-2025", "09:00", none⟩ :=
  (claim_c5_unknown_tz zdb0 testNow ⟨1, "Trip", "15-06-2025", "09:00", none⟩
    "Mars/Phobos" (by decide)).2.2

/-- C9 test: February 29 events in a non-leap local year. -/
theorem claim_c9_feb29 (zdb : ZoneDB) (utcNow : DateTimeM) (row : EventRow) (e : Date)
    (hp : parseDate row.event_date = some e) (hm : e.month = 2) (hd : e.day = 29)
    (hleap : isLeap (localNow zdb utcNow row).date.year = false) :
    candidateOccurrence e (localNow zdb utcNow row).date = none ∧
    evalEvent zdb utcNow row = none := by
  have hrep : pyReplaceYear e (localNow zdb utcNow row).date.year = none := by
    unfold pyReplaceYear
    rw [if_neg]
    intro hv
    unfold isValidDate daysInMonth at hv
    simp [hm, hd, hleap] at hv
  have hcand : candidateOccurrence e (localNow zdb utcNow row).date = none := by
    rw [candidateOccurrence.eq_def, hrep]
  refine ⟨hcand, ?_⟩
  simp only [evalEvent]
  split_ifs with hcond
  · rfl
  · simp only [hp, hcand]

/-- Witness for C9: a February 29 event evaluated with local year 2025. -/
theorem claim_c9_witness :
    evalEvent zdb0 testNow ⟨1, "Leap", "29-02-2000", "09:00", none⟩ = none :=
  (claim_c9_feb29 zdb0 testNow ⟨1, "Leap", "29-02-2000", "09:00", none⟩ ⟨2000, 2, 29⟩
    (by decide) rfl rfl (by decide)).2

lemma tick_filter_parse (zdb : ZoneDB) (utcNow : DateTimeM) (settings : List (Int × String))
    (es : List EventRec) :
    (es.map (fun e =>
        (⟨e.chat_id, e.name, e.event_date, e.notify_time,
          lookupTz settings e.chat_id⟩ : EventRow))).filterMap
      (fun r => (evalEvent zdb utcNow r).map (fun m => (r.chat_id, m))) =
    ((es.filter (fun e => (parseDate e.event_date).isSome)).map (fun e =>
        (⟨e.chat_id, e.name, e.event_date, e.notify_time,
          lookupTz settings e.chat_id⟩ : EventRow))).filterMap
      (fun r => (evalEvent zdb utcNow r).map (fun m => (r.chat_id, m))) := by
  induction es with
  | nil => rfl
  | cons e es ih =>
      simp only [List.map_cons, List.filterMap_cons, List.filter_cons]
      by_cases hp : (parseDate e.event_date).isSome
      · rw [if_pos hp]
        simp only [List.map_cons, List.filterMap_cons, ih]
      · rw [if_neg hp]
        have hnone : parseDate e.event_date = none := by
          cases hparse : parseDate e.event_date
          · rfl
          · rw [hparse] at hp; exact absurd rfl hp
        have hev : evalEvent zdb utcNow
            ⟨e.chat_id, e.name, e.event_date, e.notify_time,
              lookupTz settings e.chat_id⟩ = none :=
          evalEvent_none_of_parse_fail zdb utcNow _ hnone
        simp only [hev, Option.map_none', ih]

/-- C4 test: malformed dates are inert for the tick. -/
theorem claim_c4_malformed_inert (zdb : ZoneDB) (utcNow : DateTimeM) (db : Store) :
    (check_reminders zdb utcNow db).2 =
      (check_reminders zdb utcNow
        { db with
          events := db.events.filter (fun e => (parseDate e.event_date).isSome) }).2 :=
  tick_filter_parse zdb utcNow db.settings db.events

/-- C6 test: elapsed-time breakdown. -/
theorem claim_c6_journey (d : Nat) :
    journeyBreakdown (d : Int) =
      (((d / 365 : Nat) : Int), (((d % 365) / 30 : Nat) : Int), (((d % 365) % 30 : Nat) : Int)) ∧
    our_journey ⟨2000, 1, 1⟩ ⟨2001, 2, 4⟩ = (1, 1, 5) := by
  constructor
  · dsimp only [journeyBreakdown]
    rw [Int.ofNat_fdiv, Int.ofNat_fmod, Int.ofNat_fdiv, Int.ofNat_fmod]
    norm_num
  · decide

/-- C8 test: tick frame. -/
theorem claim_c8_tick_frame (zdb : ZoneDB) (utcNow : DateTimeM) (db : Store) :
    (check_reminders zdb utcNow db).1 = db ∧
    (check_reminders zdb utcNow db).1.events = db.events ∧
    (check_reminders zdb utcNow db).1.notes = db.notes ∧
    (check_reminders zdb utcNow db).1.settings = db.settings :=
  ⟨rfl, rfl, rfl, rfl⟩

/-- C7 test: id-and-owner scoped deletion. -/
theorem claim_c7_delete_scoped {α : Type} (rowId : α → Nat) (rowOwner : α → Int)
    (itemId : Nat) (owner : Int) (rows : List α) :
    (∀ r ∈ rows, r ∉ (delete_router_case_c rowId rowOwner itemId owner rows).1 →
      rowId r = itemId ∧ rowOwner r = owner) ∧
    ((∀ r ∈ rows, rowId r = itemId → rowOwner r ≠ owner) →
      (delete_router_case_c rowId rowOwner itemId owner rows).1 = rows ∧
      (delete_router_case_c rowId rowOwner itemId owner rows).2 = false) ∧
    (∀ r ∈ rows, rowOwner r ≠ owner →
      r ∈ (delete_router_case_c rowId rowOwner itemId owner rows).1) := by
  unfold delete_router_case_c deleteByIdOwner
  simp only
  refine ⟨?_, ?_, ?_⟩
  · intro r hr hnot
    rw [List.mem_filter] at hnot
    simp only [hr, true_and, Bool.not_eq_true', Bool.not_eq_false,
      Bool.and_eq_true, beq_iff_eq] at hnot
    exact hnot
  · intro hall
    have hfe : rows.filter (fun r => !(rowId r == itemId && rowOwner r == owner)) = rows := by
      apply List.filter_eq_self.mpr
      intro a ha
      simp only [Bool.not_eq_true', Bool.and_eq_false_iff, beq_eq_false_iff_ne, ne_eq]
      by_cases hid : rowId a = itemId
      · exact Or.inr (hall a ha hid)
      · exact Or.inl hid
    have hfn : rows.filter (fun r => rowId r == itemId && rowOwner r == owner) = [] := by
      apply List.filter_eq_nil_iff.mpr
      intro a ha
      simp only [Bool.and_eq_true, beq_iff_eq, not_and]
      intro hid
      exact hall a ha hid
    rw [hfe, hfn]
    exact ⟨rfl, rfl⟩
  · intro r hr h
    rw [List.mem_filter]
    refine ⟨hr, ?_⟩
    simp only [Bool.not_eq_true', Bool.and_eq_false_iff, beq_eq_false_iff_ne, ne_eq]
    exact Or.inr h

/-- Concrete events list for the C7 witness: ids 1 and 2 owned by chats 10
and 20 respectively. -/
def testEvents : List EventRec :=
  [⟨1, 10, "A", "01-01-2024", "09:00"⟩, ⟨2, 20, "B", "02-01-2024", "09:00"⟩]

/-- Witness for C7: owner 10 asking to delete id 2 (which belongs to owner
20) deletes nothing and is reported as a failure. -/
theorem claim_c7_witness :
    (delete_router_case_c EventRec.id EventRec.chat_id 2 10 testEvents).1 = testEvents ∧
    (delete_router_case_c EventRec.id EventRec.chat_id 2 10 testEvents).2 = false :=
  (claim_c7_delete_scoped EventRec.id EventRec.chat_id 2 10 testEvents).2.1 (by decide)

/-- C10 test: time input handling of the add-event flow. -/
theorem claim_c10_get_time (s : String) :
    (pyLower (pyStrip s) = "skip" → get_time s = some "12:00") ∧
    (pyLower (pyStrip s) ≠ "skip" → parseTimeHM (pyStrip s) = none → get_time s = none) ∧
    (∀ r, get_time s = some r → (parseTimeHM r).isSome = true) := by
  refine ⟨?_, ?_, ?_⟩
  · intro h
    simp [get_time, h]
  · intro h1 h2
    simp only [get_time]
    rw [if_neg h1]
    simp only [h2]
  · intro r hr
    simp only [get_time] at hr
    split_ifs at hr with hskip
    · obtain rfl := Option.some.inj hr
      decide
    · cases hp : parseTimeHM (pyStrip s) with
      | none => rw [hp] at hr; simp at hr
      | some v =>
          simp only [hp] at hr
          obtain rfl := Option.some.inj hr
          rw [hp]
          rfl

/-- Witness for C10: the input `"  SKIP "` stores exactly `"12:00"`. -/
theorem claim_c10_witness : get_time "  SKIP " = some "12:00" :=
  (claim_c10_get_time "  SKIP ").1 (by decide)
